import Mathlib

/-!
Verification of `.github/scripts/update_manifest.py` (ManifestUpdater).

The script is straight-line Python: it reads environment variables and a few
files, locates or creates a plugin record in a JSON manifest list, prepends a
new version record, and writes the manifest back.  We embed it shallowly:

* environment variables become `Option String` fields of `Env`
  (`none` = variable unset);
* the relevant files become fields of `World` (`Option` = file may be absent;
  the manifest file is a `FileJson`, which also records the case where the
  file exists but is not valid JSON — JSON/YAML parsing itself is out of
  scope, as in the spec);
* `raise` becomes `Except.error`; the single manifest write (last statement
  of `main`, after every raise site) is reflected by returning the written
  contents only in the `Except.ok` result;
* `datetime.utcnow()` is nondeterministic, so the formatted timestamp is an
  input (`World.now`).

Python string primitives used by the script are modelled explicitly:
`lstrip('v')` removes the maximal leading run of `v` characters, `not s` on a
string tests emptiness, an f-string renders `None` as `"None"`, `.strip()`
trims surrounding whitespace, `.lower()` lowercases.
-/

namespace ManifestUpdater

/-- One version record of a plugin (dict literal at lines 58–64 of the
script). -/
structure VersionEntry where
  version : String
  changelog : String
  timestamp : String
  sourceUrl : String
  checksum : String
  targetAbi : String
deriving DecidableEq, Repr

/-- One plugin record of the manifest (schema used at lines 84–104). -/
structure PluginEntry where
  category : String
  guid : String
  name : String
  description : String
  owner : String
  overview : String
  versions : List VersionEntry
deriving DecidableEq, Repr

/-- The parsed `plugin-repo/build.yaml`; each key the script reads via
`build_config.get` is an optional field. -/
structure BuildConfig where
  version : Option String := none
  category : Option String := none
  name : Option String := none
  description : Option String := none
  owner : Option String := none
  overview : Option String := none
  targetAbi : Option String := none
deriving DecidableEq, Repr

/-- The environment variables the script reads; `none` means unset. -/
structure Env where
  IS_PRERELEASE : Option String := none
  PLUGIN_GUID : Option String := none
  GITHUB_REF_NAME : Option String := none
  RELEASE_BODY : Option String := none
  GITHUB_REPOSITORY : Option String := none
  ARTIFACT_NAME : Option String := none
deriving DecidableEq, Repr

/-- State of the target manifest file on disk: missing, present but not valid
JSON, or present with a parsed plugin list. -/
inductive FileJson where
  | absent
  | invalid
  | parsed (m : List PluginEntry)
deriving DecidableEq, Repr

/-- The parts of the filesystem the script reads, plus the formatted current
time. `buildFile = none` models `plugin-repo/build.yaml` being unreadable,
`checksumFile = none` models a missing `checksum.txt`. -/
structure World where
  buildFile : Option BuildConfig := none
  checksumFile : Option String := none
  stableFile : FileJson := FileJson.absent
  prereleaseFile : FileJson := FileJson.absent
  now : String := ""
deriving DecidableEq, Repr

/-- Errors `main` can raise before reaching the manifest write. -/
inductive Err where
  | missingPluginGuid
  | buildFileUnreadable
  | missingRefName
  | missingArtifactName
  | missingChecksumFile
deriving DecidableEq, Repr

/-- Python truthiness test `not x` for `x : Optional[str]`: true exactly on
`None` and the empty string. -/
def py_not (v : Option String) : Bool :=
  match v with
  | none => true
  | some s => s.isEmpty

/-- Python `s.lstrip('v')`: removes every leading `v` character. -/
def lstrip_v (s : String) : String :=
  String.mk (s.data.dropWhile (fun c => c == 'v'))

/-- Python `s.lower()` (ASCII case mapping, which covers every value the
script compares). -/
def py_lower (s : String) : String :=
  String.mk (s.data.map Char.toLower)

/-- Python `s.strip()`: removes leading and trailing whitespace. -/
def py_strip (s : String) : String :=
  String.mk (((s.data.dropWhile Char.isWhitespace).reverse.dropWhile
    Char.isWhitespace).reverse)

/-- Python f-string rendering of an optional string: `None` prints as
`"None"`. -/
def py_fstr (v : Option String) : String :=
  match v with
  | none => "None"
  | some s => s

/-- `x = os.environ.get(K)` followed by `if not x: raise e` — the pattern used
for `PLUGIN_GUID`, `GITHUB_REF_NAME` and `ARTIFACT_NAME`. -/
def require_env (v : Option String) (e : Err) : Except Err String :=
  match v with
  | none => Except.error e
  | some s => if s.isEmpty then Except.error e else Except.ok s

/-- Line 13: `os.environ.get('IS_PRERELEASE', 'false').lower() == 'true'`. -/
def is_prerelease (v : Option String) : Bool :=
  py_lower (v.getD "false") == "true"

/-- Line 14: choice of target manifest filename. -/
def target_filename_of (v : Option String) : String :=
  if is_prerelease v then "manifest-prerelease.json" else "manifest.json"

/-- Line 38: `build_config.get('version', tag_name.lstrip('v'))`. -/
def version_str (cfg : BuildConfig) (tag_name : String) : String :=
  cfg.version.getD (lstrip_v tag_name)

/-- Line 55: the f-string building the download URL (`repo_slug` may be
`None`). -/
def source_url (repo_slug : Option String) (tag_name artifact_name : String) : String :=
  "https://github.com/" ++ py_fstr repo_slug ++ "/releases/download/" ++
    tag_name ++ "/" ++ artifact_name

/-- Lines 57–64: the dict `new_version_entry`. -/
def new_version_entry (cfg : BuildConfig) (tag_name release_body : String)
    (repo_slug : Option String) (artifact_name checksum now : String) : VersionEntry :=
  { version := version_str cfg tag_name
    changelog := release_body
    timestamp := now
    sourceUrl := source_url repo_slug tag_name artifact_name
    checksum := checksum
    targetAbi := cfg.targetAbi.getD "unknown" }

/-- Lines 67–77: read the manifest, treating a missing file or a
`json.JSONDecodeError` as the empty list. -/
def loadManifest (f : FileJson) : List PluginEntry :=
  match f with
  | FileJson.absent => []
  | FileJson.invalid => []
  | FileJson.parsed m => m

/-- Lines 83–91: the in-place update of a found plugin — metadata fields are
overwritten from build config (with the script's defaults) and the new
version entry is inserted at index 0; `guid` and everything else is kept. -/
def update_found (cfg : BuildConfig) (e : VersionEntry) (p : PluginEntry) : PluginEntry :=
  { p with
    category := cfg.category.getD "General"
    name := cfg.name.getD "Unknown Plugin"
    description := cfg.description.getD ""
    owner := cfg.owner.getD "Unknown Owner"
    overview := cfg.overview.getD ""
    versions := e :: p.versions }

/-- Lines 97–104: the dict `new_plugin_entry_obj` appended when no plugin
matches. -/
def new_plugin_entry_obj (g : String) (cfg : BuildConfig) (e : VersionEntry) : PluginEntry :=
  { category := cfg.category.getD "General"
    guid := g
    name := cfg.name.getD "Unknown Plugin"
    description := cfg.description.getD ""
    owner := cfg.owner.getD "Unknown Owner"
    overview := cfg.overview.getD ""
    versions := [e] }

/-- Lines 79–106: scan `manifest_data` for the first entry whose guid equals
`g` and update it (`break` stops the scan); if the scan finds none, append a
fresh entry at the end. -/
def upsert (g : String) (cfg : BuildConfig) (e : VersionEntry) :
    List PluginEntry → List PluginEntry
  | [] => [new_plugin_entry_obj g cfg e]
  | p :: rest =>
    if p.guid == g then update_found cfg e p :: rest
    else p :: upsert g cfg e rest

/-- Which file on disk `manifest_file` designates (lines 14–15 and 69). -/
def manifest_file_of (env : Env) (w : World) : FileJson :=
  if is_prerelease env.IS_PRERELEASE then w.prereleaseFile else w.stableFile

/-- The observable outputs of a successful run: the chosen filename, the
manifest contents written back (line 108), the version entry that was built,
and the `manifest_version` pipeline output (lines 113–117). -/
structure RunResult where
  target_filename : String
  manifest_data : List PluginEntry
  versionEntry : VersionEntry
  manifest_version : String
deriving DecidableEq, Repr

/-- The whole of `main` (minus logging): validations in source order, then
the upsert; the write and the pipeline output happen only on the `ok` path,
mirroring that line 108 is reached only when no exception was raised. -/
def mainE (env : Env) (w : World) : Except Err RunResult :=
  match require_env env.PLUGIN_GUID Err.missingPluginGuid with
  | Except.error e => Except.error e
  | Except.ok plugin_guid =>
    match w.buildFile with
    | none => Except.error Err.buildFileUnreadable
    | some build_config =>
      match require_env env.GITHUB_REF_NAME Err.missingRefName with
      | Except.error e => Except.error e
      | Except.ok tag_name =>
        match require_env env.ARTIFACT_NAME Err.missingArtifactName with
        | Except.error e => Except.error e
        | Except.ok artifact_name =>
          match w.checksumFile with
          | none => Except.error Err.missingChecksumFile
          | some cs =>
            let vstr := version_str build_config tag_name
            let release_body := env.RELEASE_BODY.getD "See release notes."
            let entry := new_version_entry build_config tag_name release_body
              env.GITHUB_REPOSITORY artifact_name (py_strip cs) w.now
            let result := upsert plugin_guid build_config entry
              (loadManifest (manifest_file_of env w))
            Except.ok
              { target_filename := target_filename_of env.IS_PRERELEASE
                manifest_data := result
                versionEntry := entry
                manifest_version := vstr }

/-- Contents of the target manifest file before the run. -/
def current_target_file (env : Env) (w : World) : FileJson :=
  manifest_file_of env w

/-- Contents of the target manifest file after the run: overwritten with the
upserted list when `main` completes, untouched when it raises (the only write
is the final statement). -/
def persisted_target_file (env : Env) (w : World) : FileJson :=
  match mainE env w with
  | Except.ok r => FileJson.parsed r.manifest_data
  | Except.error _ => manifest_file_of env w

/-- The `manifest_version` pipeline output of a successful run. -/
def run_version (env : Env) (w : World) : Option String :=
  (mainE env w).toOption.map RunResult.manifest_version

/-- The `version` field of the version entry a successful run builds. -/
def run_entry_version (env : Env) (w : World) : Option String :=
  (mainE env w).toOption.map (fun r => r.versionEntry.version)

/-- The `sourceUrl` field of the version entry a successful run builds. -/
def run_entry_sourceUrl (env : Env) (w : World) : Option String :=
  (mainE env w).toOption.map (fun r => r.versionEntry.sourceUrl)

/-! ### Concrete sample data for the closed instances below -/

/-- A build config like the spec's scenario: `{name: "Foo", category: "Tools"}`. -/
def cfgFoo : BuildConfig := { name := some "Foo", category := some "Tools" }

/-- A pre-existing version record of a plugin. -/
def verOld : VersionEntry :=
  { version := "0.9.0", changelog := "old", timestamp := "2025-01-01T00:00:00Z"
    sourceUrl := "https://github.com/o/r/releases/download/v0.9.0/foo.zip"
    checksum := "oldsum", targetAbi := "10.9.0.0" }

/-- A freshly built version entry for tag `v1.0.0`. -/
def entryFoo : VersionEntry :=
  new_version_entry cfgFoo "v1.0.0" "See release notes." (some "o/r") "foo.zip"
    "abc123" "2026-01-01T00:00:00Z"

/-- An existing manifest entry with guid `G1`. -/
def pluginG1 : PluginEntry :=
  { category := "Old", guid := "G1", name := "OldFoo", description := "old d"
    owner := "old o", overview := "old ov", versions := [verOld] }

/-- An unrelated manifest entry with guid `G2`. -/
def pluginG2 : PluginEntry :=
  { category := "Misc", guid := "G2", name := "Bar", description := "", owner := "x"
    overview := "", versions := [] }

/-- An environment whose release tag starts with two `v` characters. -/
def envVV : Env :=
  { PLUGIN_GUID := some "G1", GITHUB_REF_NAME := some "vv1.2.3"
    ARTIFACT_NAME := some "foo.zip" }

/-- An environment for the `GITHUB_REPOSITORY`-unset scenario. -/
def envNoRepo : Env :=
  { PLUGIN_GUID := some "G1", GITHUB_REF_NAME := some "v2.0.0"
    ARTIFACT_NAME := some "plugin.zip" }

/-- A world holding a build config and a checksum file, no manifest yet. -/
def worldReady : World :=
  { buildFile := some cfgFoo, checksumFile := some "abc123" }

/-- The empty environment: every variable unset. -/
def envNone : Env := {}

/-- The empty world: no files at all. -/
def worldNone : World := {}

/-! ### Basic lemmas about the upsert scan -/

theorem upsert_of_not_found (g : String) (cfg : BuildConfig) (e : VersionEntry) :
    ∀ m : List PluginEntry, (∀ p ∈ m, ¬ p.guid = g) →
      upsert g cfg e m = m ++ [new_plugin_entry_obj g cfg e] := by
  intro m
  induction m with
  | nil => intro _; rfl
  | cons p rest ih =>
    intro h
    have hp : ¬ p.guid = g := h p (List.mem_cons_self p rest)
    simp only [upsert, beq_iff_eq, if_neg hp, List.cons_append, List.cons.injEq, true_and]
    exact ih (fun q hq => h q (List.mem_cons_of_mem p hq))

theorem upsert_of_found (g : String) (cfg : BuildConfig) (e : VersionEntry)
    (p : PluginEntry) (post : List PluginEntry) :
    ∀ pre : List PluginEntry, (∀ q ∈ pre, ¬ q.guid = g) → p.guid = g →
      upsert g cfg e (pre ++ p :: post) = pre ++ update_found cfg e p :: post := by
  intro pre
  induction pre with
  | nil =>
    intro _ hp
    simp only [List.nil_append, upsert, beq_iff_eq, if_pos hp]
  | cons q rest ih =>
    intro h hp
    have hq : ¬ q.guid = g := h q (List.mem_cons_self q rest)
    simp only [List.cons_append, upsert, beq_iff_eq, if_neg hq, List.cons.injEq, true_and]
    exact ih (fun r hr => h r (List.mem_cons_of_mem q hr)) hp

theorem guid_mem_upsert (g : String) (cfg : BuildConfig) (e : VersionEntry) :
    ∀ m : List PluginEntry, ∀ x ∈ (upsert g cfg e m).map PluginEntry.guid,
      x = g ∨ x ∈ m.map PluginEntry.guid := by
  intro m
  induction m with
  | nil =>
    intro x hx
    simp only [upsert, List.map_cons, List.map_nil, List.mem_singleton] at hx
    exact Or.inl hx
  | cons p rest ih =>
    intro x hx
    by_cases hp : p.guid = g
    · simp only [upsert, beq_iff_eq, if_pos hp, List.map_cons, List.mem_cons] at hx
      rcases hx with hx | hx
      · exact Or.inr (by simp [update_found] at hx; simp [hx])
      · exact Or.inr (by simp [hx])
    · simp only [upsert, beq_iff_eq, if_neg hp, List.map_cons, List.mem_cons] at hx
      rcases hx with hx | hx
      · exact Or.inr (by simp [hx])
      · rcases ih x hx with h | h
        · exact Or.inl h
        · exact Or.inr (by simp [h])

theorem nodup_guids_upsert (g : String) (cfg : BuildConfig) (e : VersionEntry) :
    ∀ m : List PluginEntry, (m.map PluginEntry.guid).Nodup →
      ((upsert g cfg e m).map PluginEntry.guid).Nodup := by
  intro m
  induction m with
  | nil => intro _; simp [upsert, new_plugin_entry_obj]
  | cons p rest ih =>
    intro h
    simp only [List.map_cons, List.nodup_cons] at h
    obtain ⟨hp, hrest⟩ := h
    by_cases hg : p.guid = g
    · simp only [upsert, beq_iff_eq, if_pos hg, List.map_cons, List.nodup_cons]
      exact ⟨by simpa [update_found] using hp, hrest⟩
    · simp only [upsert, beq_iff_eq, if_neg hg, List.map_cons, List.nodup_cons]
      refine ⟨fun hmem => ?_, ih hrest⟩
      rcases guid_mem_upsert g cfg e rest p.guid hmem with h1 | h1
      · exact hg h1
      · exact hp h1

/-! ### Lemmas about the validation steps of `main` -/

theorem require_env_error (v : Option String) (e : Err) (h : py_not v = true) :
    require_env v e = Except.error e := by
  cases v with
  | none => rfl
  | some s =>
    simp only [py_not] at h
    simp [require_env, h]

theorem require_env_ok (v : Option String) (e : Err) (h : py_not v = false) :
    require_env v e = Except.ok (v.getD "") := by
  cases v with
  | none => simp [py_not] at h
  | some s =>
    simp only [py_not] at h
    simp [require_env, h]

theorem py_not_false_of_some (s : String) (h : ¬ s = "") :
    py_not (some s) = false := by
  simp only [py_not]
  rw [Bool.eq_false_iff]
  intro he
  exact h ((String.isEmpty_iff s).mp he)

theorem mainE_err_of_guid (env : Env) (w : World)
    (h : py_not env.PLUGIN_GUID = true) : (mainE env w).isOk = false := by
  simp [mainE, require_env_error env.PLUGIN_GUID Err.missingPluginGuid h, Except.isOk, Except.toBool]

theorem mainE_err_of_ref (env : Env) (w : World)
    (h : py_not env.GITHUB_REF_NAME = true) : (mainE env w).isOk = false := by
  simp only [mainE]
  cases hg : require_env env.PLUGIN_GUID Err.missingPluginGuid with
  | error e => simp [Except.isOk, Except.toBool]
  | ok s =>
    cases hb : w.buildFile with
    | none => simp [Except.isOk, Except.toBool]
    | some cfg =>
      simp [require_env_error env.GITHUB_REF_NAME Err.missingRefName h, Except.isOk, Except.toBool]

theorem mainE_err_of_artifact (env : Env) (w : World)
    (h : py_not env.ARTIFACT_NAME = true) : (mainE env w).isOk = false := by
  simp only [mainE]
  cases hg : require_env env.PLUGIN_GUID Err.missingPluginGuid with
  | error e => simp [Except.isOk, Except.toBool]
  | ok s =>
    cases hb : w.buildFile with
    | none => simp [Except.isOk, Except.toBool]
    | some cfg =>
      cases hr : require_env env.GITHUB_REF_NAME Err.missingRefName with
      | error e => simp [Except.isOk, Except.toBool]
      | ok tag =>
        simp [require_env_error env.ARTIFACT_NAME Err.missingArtifactName h, Except.isOk, Except.toBool]

theorem mainE_err_of_checksum (env : Env) (w : World)
    (h : w.checksumFile = none) : (mainE env w).isOk = false := by
  simp only [mainE]
  cases hg : require_env env.PLUGIN_GUID Err.missingPluginGuid with
  | error e => simp [Except.isOk, Except.toBool]
  | ok s =>
    cases hb : w.buildFile with
    | none => simp [Except.isOk, Except.toBool]
    | some cfg =>
      cases hr : require_env env.GITHUB_REF_NAME Err.missingRefName with
      | error e => simp [Except.isOk, Except.toBool]
      | ok tag =>
        cases ha : require_env env.ARTIFACT_NAME Err.missingArtifactName with
        | error e => simp [Except.isOk, Except.toBool]
        | ok art => simp [h, Except.isOk, Except.toBool]

/-- On every successful run, `mainE` is the upsert of the loaded manifest
with the version entry built from the inputs. -/
theorem mainE_ok_of_present (env : Env) (w : World) (cfg : BuildConfig)
    (g tag art cs : String)
    (hguid : env.PLUGIN_GUID = some g) (hg : ¬ g = "")
    (href : env.GITHUB_REF_NAME = some tag) (ht : ¬ tag = "")
    (hart : env.ARTIFACT_NAME = some art) (ha : ¬ art = "")
    (hbuild : w.buildFile = some cfg) (hcs : w.checksumFile = some cs) :
    mainE env w = Except.ok
      { target_filename := target_filename_of env.IS_PRERELEASE
        manifest_data := upsert g cfg
          (new_version_entry cfg tag (env.RELEASE_BODY.getD "See release notes.")
            env.GITHUB_REPOSITORY art (py_strip cs) w.now)
          (loadManifest (manifest_file_of env w))
        versionEntry := new_version_entry cfg tag
          (env.RELEASE_BODY.getD "See release notes.")
          env.GITHUB_REPOSITORY art (py_strip cs) w.now
        manifest_version := version_str cfg tag } := by
  have h1 : require_env env.PLUGIN_GUID Err.missingPluginGuid = Except.ok g := by
    rw [hguid]
    simpa [hguid] using require_env_ok (some g) Err.missingPluginGuid (py_not_false_of_some g hg)
  have h2 : require_env env.GITHUB_REF_NAME Err.missingRefName = Except.ok tag := by
    rw [href]
    simpa using require_env_ok (some tag) Err.missingRefName (py_not_false_of_some tag ht)
  have h3 : require_env env.ARTIFACT_NAME Err.missingArtifactName = Except.ok art := by
    rw [hart]
    simpa using require_env_ok (some art) Err.missingArtifactName (py_not_false_of_some art ha)
  simp [mainE, h1, h2, h3, hbuild, hcs]

/-! ### The claims -/

/-- Claim C1: for every manifest containing an entry whose guid equals the
plugin GUID (written `pre ++ p :: post` with the first such entry `p`, the one
the scan reaches), the upsert leaves the length unchanged, overwrites that
entry's category, name, description, owner and overview from the build
config, and its versions list becomes the new version entry followed by the
prior entries unchanged and in order; every other entry is untouched. -/
theorem upsert_found_spec (g : String) (cfg : BuildConfig) (e : VersionEntry)
    (pre post : List PluginEntry) (p : PluginEntry)
    (hpre : ∀ q ∈ pre, ¬ q.guid = g) (hp : p.guid = g) :
    (upsert g cfg e (pre ++ p :: post)).length = (pre ++ p :: post).length ∧
    upsert g cfg e (pre ++ p :: post) = pre ++ update_found cfg e p :: post ∧
    (update_found cfg e p).category = cfg.category.getD "General" ∧
    (update_found cfg e p).name = cfg.name.getD "Unknown Plugin" ∧
    (update_found cfg e p).description = cfg.description.getD "" ∧
    (update_found cfg e p).owner = cfg.owner.getD "Unknown Owner" ∧
    (update_found cfg e p).overview = cfg.overview.getD "" ∧
    (update_found cfg e p).guid = p.guid ∧
    (update_found cfg e p).versions = e :: p.versions := by
  have hq := upsert_of_found g cfg e p post pre hpre hp
  refine ⟨?_, hq, rfl, rfl, rfl, rfl, rfl, rfl, rfl⟩
  rw [hq]
  simp

theorem upsert_found_spec_instance :
    (upsert "G1" cfgFoo entryFoo ([pluginG2] ++ pluginG1 :: [])).length =
      ([pluginG2] ++ pluginG1 :: []).length ∧
    upsert "G1" cfgFoo entryFoo ([pluginG2] ++ pluginG1 :: []) =
      [pluginG2] ++ update_found cfgFoo entryFoo pluginG1 :: [] ∧
    (update_found cfgFoo entryFoo pluginG1).category = cfgFoo.category.getD "General" ∧
    (update_found cfgFoo entryFoo pluginG1).name = cfgFoo.name.getD "Unknown Plugin" ∧
    (update_found cfgFoo entryFoo pluginG1).description = cfgFoo.description.getD "" ∧
    (update_found cfgFoo entryFoo pluginG1).owner = cfgFoo.owner.getD "Unknown Owner" ∧
    (update_found cfgFoo entryFoo pluginG1).overview = cfgFoo.overview.getD "" ∧
    (update_found cfgFoo entryFoo pluginG1).guid = pluginG1.guid ∧
    (update_found cfgFoo entryFoo pluginG1).versions = entryFoo :: pluginG1.versions :=
  upsert_found_spec "G1" cfgFoo entryFoo [pluginG2] [] pluginG1 (by decide) (by decide)

/-- Claim C2: for every manifest with no entry matching the guid, the upsert
appends exactly one new entry at the end, with versions `[e]`, metadata from
the build config with the script's defaults, leaving the pre-existing
entries unchanged. -/
theorem upsert_not_found_spec (g : String) (cfg : BuildConfig) (e : VersionEntry)
    (m : List PluginEntry) (h : ∀ p ∈ m, ¬ p.guid = g) :
    upsert g cfg e m = m ++ [new_plugin_entry_obj g cfg e] ∧
    (upsert g cfg e m).length = m.length + 1 ∧
    (upsert g cfg e m).take m.length = m ∧
    (new_plugin_entry_obj g cfg e).category = cfg.category.getD "General" ∧
    (new_plugin_entry_obj g cfg e).guid = g ∧
    (new_plugin_entry_obj g cfg e).name = cfg.name.getD "Unknown Plugin" ∧
    (new_plugin_entry_obj g cfg e).description = cfg.description.getD "" ∧
    (new_plugin_entry_obj g cfg e).owner = cfg.owner.getD "Unknown Owner" ∧
    (new_plugin_entry_obj g cfg e).overview = cfg.overview.getD "" ∧
    (new_plugin_entry_obj g cfg e).versions = [e] := by
  have hq := upsert_of_not_found g cfg e m h
  refine ⟨hq, ?_, ?_, rfl, rfl, rfl, rfl, rfl, rfl, rfl⟩
  · rw [hq]
    simp
  · rw [hq]
    simp

theorem upsert_not_found_spec_instance :
    upsert "G1" cfgFoo entryFoo [pluginG2] =
      [pluginG2] ++ [new_plugin_entry_obj "G1" cfgFoo entryFoo] ∧
    (upsert "G1" cfgFoo entryFoo [pluginG2]).length = [pluginG2].length + 1 ∧
    (upsert "G1" cfgFoo entryFoo [pluginG2]).take [pluginG2].length = [pluginG2] ∧
    (new_plugin_entry_obj "G1" cfgFoo entryFoo).category = cfgFoo.category.getD "General" ∧
    (new_plugin_entry_obj "G1" cfgFoo entryFoo).guid = "G1" ∧
    (new_plugin_entry_obj "G1" cfgFoo entryFoo).name = cfgFoo.name.getD "Unknown Plugin" ∧
    (new_plugin_entry_obj "G1" cfgFoo entryFoo).description = cfgFoo.description.getD "" ∧
    (new_plugin_entry_obj "G1" cfgFoo entryFoo).owner = cfgFoo.owner.getD "Unknown Owner" ∧
    (new_plugin_entry_obj "G1" cfgFoo entryFoo).overview = cfgFoo.overview.getD "" ∧
    (new_plugin_entry_obj "G1" cfgFoo entryFoo).versions = [entryFoo] :=
  upsert_not_found_spec "G1" cfgFoo entryFoo [pluginG2] (by decide)

/-- Claim C3 as stated is false: line 38 uses `tag_name.lstrip('v')`, which
removes every leading `v`, not just one.  For the tag `"vv1.2.3"` the claim
predicts version `"v1.2.3"` (the tag with a single leading `v` removed,
i.e. `"vv1.2.3".drop 1`), but the run places `"1.2.3"` in the version entry
and in the pipeline output. -/
theorem version_lstrip_counterexample :
    ("vv1.2.3" : String) = "v" ++ "v1.2.3" ∧
    run_entry_version envVV worldReady = some "1.2.3" ∧
    run_version envVV worldReady = some "1.2.3" ∧
    ¬ run_entry_version envVV worldReady = some "v1.2.3" := by
  refine ⟨by decide, by decide, by decide, by decide⟩

/-- Claim C3 (amended): when the build config has no explicit version key,
the version string placed in the new version entry and emitted as the
pipeline output equals the tag name with its whole maximal leading run of
`v` characters removed (`lstrip_v`). -/
theorem version_default_strips_all_leading_v (env : Env) (w : World)
    (cfg : BuildConfig) (g tag art cs : String)
    (hguid : env.PLUGIN_GUID = some g) (hg : ¬ g = "")
    (href : env.GITHUB_REF_NAME = some tag) (ht : ¬ tag = "")
    (hart : env.ARTIFACT_NAME = some art) (ha : ¬ art = "")
    (hbuild : w.buildFile = some cfg) (hv : cfg.version = none)
    (hcs : w.checksumFile = some cs) :
    run_version env w = some (lstrip_v tag) ∧
    run_entry_version env w = some (lstrip_v tag) := by
  have h := mainE_ok_of_present env w cfg g tag art cs hguid hg href ht hart ha hbuild hcs
  constructor
  · simp [run_version, h, Except.toOption, version_str, hv]
  · simp [run_entry_version, h, Except.toOption, new_version_entry, version_str, hv]

theorem version_default_strips_all_leading_v_instance :
    run_version envVV worldReady = some (lstrip_v "vv1.2.3") ∧
    run_entry_version envVV worldReady = some (lstrip_v "vv1.2.3") :=
  version_default_strips_all_leading_v envVV worldReady cfgFoo "G1" "vv1.2.3"
    "foo.zip" "abc123" rfl (by decide) rfl (by decide) rfl (by decide) rfl rfl rfl

/-- Claim C4: the sourceUrl is exactly
`https://github.com/<repoSlug>/releases/download/<tag>/<artifact>`, and the
spec's example evaluates to the expected literal. -/
theorem source_url_format :
    (∀ slug tag art : String,
      source_url (some slug) tag art =
        "https://github.com/" ++ slug ++ "/releases/download/" ++ tag ++ "/" ++ art) ∧
    source_url (some "acme/plugin") "v2.0.0" "plugin.zip" =
      "https://github.com/acme/plugin/releases/download/v2.0.0/plugin.zip" := by
  refine ⟨fun slug tag art => rfl, by decide⟩

/-- Claim C5: loading the manifest never fails — a missing file and a file
that does not parse as JSON both give the empty list, and a parsed file
gives the parsed value. -/
theorem loadManifest_never_fails :
    loadManifest FileJson.absent = [] ∧
    loadManifest FileJson.invalid = [] ∧
    ∀ m : List PluginEntry, loadManifest (FileJson.parsed m) = m :=
  ⟨rfl, rfl, fun _ => rfl⟩

/-- Claim C6: the target filename is `manifest-prerelease.json` exactly when
the lowercased `IS_PRERELEASE` value (defaulting to `"false"` when unset)
equals `"true"`, and `manifest.json` for every other value. -/
theorem target_filename_selection :
    (∀ v : Option String,
      target_filename_of v = "manifest-prerelease.json" ↔
        py_lower (v.getD "false") = "true") ∧
    (∀ v : Option String,
      target_filename_of v = "manifest-prerelease.json" ∨
        target_filename_of v = "manifest.json") ∧
    target_filename_of none = "manifest.json" := by
  have hne : ("manifest.json" : String) ≠ "manifest-prerelease.json" := by decide
  refine ⟨fun v => ?_, fun v => ?_, by decide⟩
  · by_cases h : py_lower (v.getD "false") = "true"
    · simp [target_filename_of, is_prerelease, beq_iff_eq, h]
    · simp [target_filename_of, is_prerelease, beq_iff_eq, h, hne]
  · by_cases h : py_lower (v.getD "false") = "true" <;>
      simp [target_filename_of, is_prerelease, beq_iff_eq, h]

theorem target_filename_selection_instance :
    target_filename_of (some "TRUE") = "manifest-prerelease.json" :=
  (target_filename_selection.1 (some "TRUE")).mpr (by decide)

/-- Claim C7: whenever `PLUGIN_GUID`, `GITHUB_REF_NAME` or `ARTIFACT_NAME`
is unset or the checksum file does not exist, the run fails, and since the
single manifest write is the last statement of `main` — after every raise
site — the persisted manifest is unchanged. -/
theorem missing_inputs_halt_without_write (env : Env) (w : World)
    (h : env.PLUGIN_GUID = none ∨ env.GITHUB_REF_NAME = none ∨
      env.ARTIFACT_NAME = none ∨ w.checksumFile = none) :
    (mainE env w).isOk = false ∧
    persisted_target_file env w = current_target_file env w := by
  have hfail : (mainE env w).isOk = false := by
    rcases h with h | h | h | h
    · exact mainE_err_of_guid env w (by rw [h]; rfl)
    · exact mainE_err_of_ref env w (by rw [h]; rfl)
    · exact mainE_err_of_artifact env w (by rw [h]; rfl)
    · exact mainE_err_of_checksum env w h
  refine ⟨hfail, ?_⟩
  unfold persisted_target_file current_target_file
  cases hm : mainE env w with
  | ok r =>
    rw [hm] at hfail
    simp [Except.isOk, Except.toBool] at hfail
  | error e => rfl

theorem missing_inputs_halt_without_write_instance :
    (mainE envNone worldNone).isOk = false ∧
    persisted_target_file envNone worldNone = current_target_file envNone worldNone :=
  missing_inputs_halt_without_write envNone worldNone (Or.inl rfl)

/-- Claim C8: the at-most-one-entry-per-guid invariant is preserved by the
upsert, in the found case and in the not-found case alike. -/
theorem upsert_preserves_guid_uniqueness (g : String) (cfg : BuildConfig)
    (e : VersionEntry) (m : List PluginEntry)
    (h : (m.map PluginEntry.guid).Nodup) :
    ((upsert g cfg e m).map PluginEntry.guid).Nodup :=
  nodup_guids_upsert g cfg e m h

theorem upsert_preserves_guid_uniqueness_instance :
    ((upsert "G1" cfgFoo entryFoo [pluginG2, pluginG1]).map PluginEntry.guid).Nodup :=
  upsert_preserves_guid_uniqueness "G1" cfgFoo entryFoo [pluginG2, pluginG1] (by decide)

/-- Claim C9: for each required variable, an empty-string value runs exactly
like an unset one (Python `not s` is true for the empty string): the run
produces the same outcome, and that outcome is a failure. -/
theorem empty_required_env_behaves_as_missing (env : Env) (w : World) :
    (mainE { env with PLUGIN_GUID := some "" } w =
        mainE { env with PLUGIN_GUID := none } w ∧
      (mainE { env with PLUGIN_GUID := some "" } w).isOk = false) ∧
    (mainE { env with GITHUB_REF_NAME := some "" } w =
        mainE { env with GITHUB_REF_NAME := none } w ∧
      (mainE { env with GITHUB_REF_NAME := some "" } w).isOk = false) ∧
    (mainE { env with ARTIFACT_NAME := some "" } w =
        mainE { env with ARTIFACT_NAME := none } w ∧
      (mainE { env with ARTIFACT_NAME := some "" } w).isOk = false) := by
  obtain ⟨ipre, pg, ref, rb, repo, art⟩ := env
  refine ⟨⟨rfl, rfl⟩, ⟨?_, mainE_err_of_ref _ w rfl⟩, ⟨?_, mainE_err_of_artifact _ w rfl⟩⟩
  · cases pg with
    | none => rfl
    | some s =>
      by_cases hs : s.isEmpty
      · simp [mainE, require_env, hs]
      · cases hb : w.buildFile <;>
          simp [mainE, require_env, hs, hb, show ("" : String).isEmpty = true from rfl]
  · cases pg with
    | none => rfl
    | some s =>
      by_cases hs : s.isEmpty
      · simp [mainE, require_env, hs]
      · cases hb : w.buildFile with
        | none => simp [mainE, require_env, hs, hb]
        | some cfg =>
          cases ref with
          | none => simp [mainE, require_env, hs, hb]
          | some t =>
            by_cases ht : t.isEmpty <;>
              simp [mainE, require_env, hs, ht, hb,
                show ("" : String).isEmpty = true from rfl]

/-- Claim C10: with `GITHUB_REPOSITORY` unset and every required input
present, the run succeeds and the version entry's sourceUrl carries the
literal `None` in the slug position. -/
theorem unset_repo_slug_renders_none (env : Env) (w : World)
    (cfg : BuildConfig) (g tag art cs : String)
    (hrepo : env.GITHUB_REPOSITORY = none)
    (hguid : env.PLUGIN_GUID = some g) (hg : ¬ g = "")
    (href : env.GITHUB_REF_NAME = some tag) (ht : ¬ tag = "")
    (hart : env.ARTIFACT_NAME = some art) (ha : ¬ art = "")
    (hbuild : w.buildFile = some cfg) (hcs : w.checksumFile = some cs) :
    (mainE env w).isOk = true ∧
    run_entry_sourceUrl env w =
      some ("https://github.com/None/releases/download/" ++ tag ++ "/" ++ art) := by
  have h := mainE_ok_of_present env w cfg g tag art cs hguid hg href ht hart ha hbuild hcs
  constructor
  · simp [h, Except.isOk, Except.toBool]
  · simp only [run_entry_sourceUrl, h, Except.toOption, Option.map, new_version_entry,
      source_url, hrepo, py_fstr]
    rw [show ("https://github.com/" ++ "None" ++ "/releases/download/" : String) =
      "https://github.com/None/releases/download/" from rfl]

theorem unset_repo_slug_renders_none_instance :
    (mainE envNoRepo worldReady).isOk = true ∧
    run_entry_sourceUrl envNoRepo worldReady =
      some ("https://github.com/None/releases/download/" ++ "v2.0.0" ++ "/" ++ "plugin.zip") :=
  unset_repo_slug_renders_none envNoRepo worldReady cfgFoo "G1" "v2.0.0"
    "plugin.zip" "abc123" rfl rfl (by decide) rfl (by decide) rfl (by decide) rfl rfl

end ManifestUpdater
